import Mathlib

/-
Verification development for the `modem` Go package (modem.go).

The package tracks USB modems: a Manager holds vendor/product filters, a
registry map from device-node paths to Modem records, and add/update/remove
handlers.  A background worker enumerates and monitors udev events; each
event is processed by `readDevice`, and `getImei` retrieves a hardware
identifier over a serial port.

The definitions below are a shallow embedding of that code:
  * pure data (Modem, filter, registry) becomes Lean structures and
    association lists;
  * the udev device handed to `readDevice` becomes an `Event` record holding
    exactly the fields the code reads (action, DevNode, SysName, Subsystem,
    the grandparent bNumEndpoints attribute, and the resolved usb_device
    parent);
  * the serial transport used by `getImei` becomes a `SerialEnv` record
    describing the outcome of the open/write/read calls;
  * handler invocations are returned as an explicit list of `HCall` values
    in the order the Go code would invoke them.
-/

/-- USB Modem record (struct `Modem` in modem.go): network interface name,
tty device node, IMEI string, and the `ready` int flag. -/
structure Modem where
  Net : String
  Tty : String
  Imei : String
  ready : Nat
deriving DecidableEq

/-- The zero value of the Go `Modem` struct, produced by reading a missing
key from the `devices` map. -/
def Modem.zero : Modem := ⟨"", "", "", 0⟩

/-- Vendor/product filter (struct `filter` in modem.go). -/
structure filter where
  vid : String
  pid : String
deriving DecidableEq

/-- The `devices` map of the Manager, embedded as an association list from
device-node path to Modem. -/
abbrev Registry := List (String × Modem)

/-- Map lookup (`m.devices[k]` with the comma-ok idiom). -/
def rfind : Registry → String → Option Modem
  | [], _ => none
  | (k, v) :: r, key => if k = key then some v else rfind r key

/-- Map assignment (`m.devices[k] = v`): replace the binding if present,
otherwise append it. -/
def rinsert : Registry → String → Modem → Registry
  | [], key, v => [(key, v)]
  | (k, w) :: r, key, v =>
      if k = key then (key, v) :: r else (k, w) :: rinsert r key v

/-- Map deletion (`delete(m.devices, k)`). -/
def rerase : Registry → String → Registry
  | [], _ => []
  | (k, w) :: r, key =>
      if k = key then rerase r key else (k, w) :: rerase r key

/-- Outcome of the serial transport calls made by one `getImei` invocation:
whether `serial.OpenPort`, `Write`, and the second `Read` fail, and the bytes
delivered by the second `Read` (the first read, whose result the code
discards, is not represented). -/
structure SerialEnv where
  openErr : Bool
  writeErr : Bool
  readErr : Bool
  readBytes : List Char
deriving DecidableEq

/-- `IMEILEN` constant of modem.go. -/
def IMEILEN : Nat := 17

/-- Character class of the cutset `"\r\n "` used by `strings.Trim`. -/
def imeiCut (c : Char) : Bool := c = '\r' || c = '\n' || c = ' '

/-- `strings.Trim(s, "\r\n ")`: drop leading and trailing cutset
characters. -/
def trimCut (l : List Char) : List Char :=
  ((l.dropWhile imeiCut).reverse.dropWhile imeiCut).reverse

/-- Embedding of `getImei` (modem.go lines 238-258): open the port, write
the AT command, discard the first read, take the second read's byte count
`n`; fail with "Invalid Imei" when `n != 25`, otherwise return the first
`IMEILEN` bytes of the buffer trimmed of CR/LF/space. -/
def getImei (env : SerialEnv) (port : String) : Except String String :=
  if env.openErr then Except.error "open error"
  else if env.writeErr then Except.error "write error"
  else if env.readErr then Except.error "read error"
  else if env.readBytes.length ≠ 25 then Except.error "Invalid Imei"
  else Except.ok (String.mk (trimCut (env.readBytes.take IMEILEN)))
  -- `port` names the serial device; which bytes come back is part of `env`.

/-- The resolved `ParentWithSubsystemDevType("usb", "usb_device")` ancestor:
its device node and the `idVendor` / `idProduct` attributes the code reads. -/
structure UsbParent where
  devNode : String
  idVendor : String
  idProduct : String
deriving DecidableEq

/-- One udev device as observed by `readDevice`: the action, the leaf's
DevNode / SysName / Subsystem, the grandparent `bNumEndpoints` attribute
(line 194), and the usb_device ancestor (`none` when the lookup IsNil). -/
structure Event where
  action : String
  devNode : String
  sysName : String
  subsystem : String
  epNum : String
  usbParent : Option UsbParent
deriving DecidableEq

/-- A handler invocation performed by the code, with the Modem value it was
given. -/
inductive HCall where
  | add (m : Modem)
  | update (m : Modem)
  | remove (m : Modem)
deriving DecidableEq

/-- Body of the per-filter match in `readDevice` (lines 210-232): fetch the
record at the parent's device node, set `Net` on a net event, on a
tty/endpoints-"03" event call `getImei` (updating the record on success) and
fire the add or update handler, and store the record back. -/
def filterStep (env : SerialEnv) (ev : Event) (p : UsbParent)
    (devices : Registry) : Registry × Option HCall :=
  let d0 := (rfind devices p.devNode).getD Modem.zero
  let d1 := if ev.subsystem = "net" then { d0 with Net := ev.sysName } else d0
  if ev.subsystem = "tty" ∧ ev.epNum = "03" then
    -- the 5-second settle delay on "add" has no observable effect here
    let d2 := match getImei env ev.devNode with
      | Except.ok imei => { d1 with Tty := ev.devNode, Imei := imei, ready := 1 }
      | Except.error _ => d1
    (rinsert devices p.devNode d2,
      some (if ev.action ≠ "update" then HCall.add d2 else HCall.update d2))
  else
    (rinsert devices p.devNode d1, none)

/-- The `for _, f := range m.filters` loop of `readDevice` (lines 208-234):
each filter whose vid/pid equal the parent's attributes runs `filterStep` on
the registry as left by the previous iteration. -/
def filterLoop (env : SerialEnv) (ev : Event) (p : UsbParent) :
    List filter → Registry → Registry × List HCall
  | [], devices => (devices, [])
  | f :: fs, devices =>
      if p.idVendor = f.vid ∧ p.idProduct = f.pid then
        let s := filterStep env ev p devices
        let rest := filterLoop env ev p fs s.1
        (rest.1, s.2.toList ++ rest.2)
      else
        filterLoop env ev p fs devices

/-- Embedding of `Manager.readDevice` (lines 177-235): a "remove" action
deletes the entry at the event's own DevNode (firing the remove handler)
when present; otherwise events outside the tty/net subsystems, or without a
usb_device ancestor, are ignored, and the filter loop runs. -/
def readDevice (env : SerialEnv) (filters : List filter)
    (devices : Registry) (ev : Event) : Registry × List HCall :=
  if ev.action = "remove" then
    match rfind devices ev.devNode with
    | none => (devices, [])
    | some modem => (rerase devices ev.devNode, [HCall.remove modem])
  else
    if ev.subsystem ≠ "tty" ∧ ev.subsystem ≠ "net" then (devices, [])
    else
      match ev.usbParent with
      | none => (devices, [])
      | some p => filterLoop env ev p filters devices

/-- Manager state as far as the start/stop API observes it: the filters, the
devices map, the `monitoring` flag, and a count of monitor goroutines that
`go m.monitor()` has spawned. -/
structure ManagerState where
  filters : List filter
  devices : Registry
  monitoring : Bool
  loopsStarted : Nat
deriving DecidableEq

/-- `New()`: empty filters, empty devices map, `monitoring` at its zero
value `false`, no goroutine spawned yet. -/
def ManagerNew : ManagerState := ⟨[], [], false, 0⟩

/-- Embedding of `Manager.Monitor` (lines 108-115): error when `monitoring`
is set, otherwise make a fresh stop channel and spawn the monitor goroutine.
The code does not assign `monitoring` here. -/
def Monitor (m : ManagerState) : Except String ManagerState :=
  if m.monitoring then Except.error "Monitor is already started"
  else Except.ok { m with loopsStarted := m.loopsStarted + 1 }

/-- Embedding of `Manager.StopMonitor` (lines 118-125): error when
`monitoring` is unset, otherwise close the stop channel and clear the
flag. -/
def StopMonitor (m : ManagerState) : Except String ManagerState :=
  if !m.monitoring then Except.error "Monitor already stopped."
  else Except.ok { m with monitoring := false }

/-- `Manager.List` (lines 97-105): the entries whose `ready` flag is 1. -/
def ListDevices (devices : Registry) : Registry :=
  devices.filter (fun kv => kv.2.ready == 1)

/-- What the `select` at the top of one iteration of the monitor loop
(lines 156-171) observes: the stop channel is ready, a device event arrived,
or `ReceiveDevice` returned nil. -/
inductive LoopSignal where
  | stop
  | event (e : Event)
  | noEvent

/-- Whether the iteration falls through to another iteration of the `for`
loop or the worker function returns. -/
inductive LoopOutcome where
  | next
  | returned
deriving DecidableEq

/-- One iteration of the monitor loop (lines 156-171).  In the stop case the
code deletes every key of `m.devices` and executes `break`; in Go a `break`
inside a `select` terminates the `select` statement only, so the enclosing
`for` runs another iteration and the outcome is `next`, not `returned`. -/
def monitorStep (env : SerialEnv) (filters : List filter)
    (devices : Registry) : LoopSignal → Registry × List HCall × LoopOutcome
  | LoopSignal.stop => ([], [], LoopOutcome.next)
  | LoopSignal.event e =>
      let s := readDevice env filters devices e
      (s.1, s.2, LoopOutcome.next)
  | LoopSignal.noEvent => (devices, [], LoopOutcome.next)

/-- Readiness invariant claimed by the spec: a record whose `ready` flag is
set has a non-empty serial-port path and a non-empty hardware identifier. -/
def ReadyInv (r : Registry) : Prop :=
  ∀ kv ∈ r, kv.2.ready = 1 → kv.2.Tty ≠ "" ∧ kv.2.Imei ≠ ""

/-- Number of filters in the list that the parent's vid/pid pair matches. -/
def matchCount (p : UsbParent) : List filter → Nat
  | [] => 0
  | f :: fs =>
      (if p.idVendor = f.vid ∧ p.idProduct = f.pid then 1 else 0) + matchCount p fs

/-- Record produced by the tty/endpoints-"03" branch from a prior record
`d`: updated with the device node, IMEI and ready flag when `getImei`
succeeds, unchanged when it fails. -/
def ttyRecord (env : SerialEnv) (ev : Event) (d : Modem) : Modem :=
  match getImei env ev.devNode with
  | Except.ok imei => { d with Tty := ev.devNode, Imei := imei, ready := 1 }
  | Except.error _ => d

/-- The handler the tty/endpoints-"03" branch fires: add unless the action
is exactly "update". -/
def mkCall (action : String) (d : Modem) : HCall :=
  if action ≠ "update" then HCall.add d else HCall.update d

/-! ### Registry lemmas -/

theorem rfind_rinsert_self (r : Registry) (k : String) (v : Modem) :
    rfind (rinsert r k v) k = some v := by
  induction r with
  | nil => simp [rinsert, rfind]
  | cons kv r ih =>
      obtain ⟨k0, w⟩ := kv
      by_cases h : k0 = k
      · simp [rinsert, h, rfind]
      · simp [rinsert, h, rfind, ih]

theorem rfind_mem {r : Registry} {k : String} {v : Modem}
    (h : rfind r k = some v) : (k, v) ∈ r := by
  induction r with
  | nil => simp [rfind] at h
  | cons kv r ih =>
      obtain ⟨k0, w⟩ := kv
      by_cases hk : k0 = k
      · subst hk
        simp [rfind] at h
        simp [h]
      · simp [rfind, hk] at h
        exact List.mem_cons_of_mem _ (ih h)

theorem mem_rinsert {r : Registry} {k : String} {v : Modem} {x : String × Modem}
    (h : x ∈ rinsert r k v) : x ∈ r ∨ x = (k, v) := by
  induction r with
  | nil =>
      simp [rinsert] at h
      exact Or.inr h
  | cons kv r ih =>
      obtain ⟨k0, w⟩ := kv
      by_cases hk : k0 = k
      · simp [rinsert, hk] at h
        rcases h with h | h
        · exact Or.inr (by simp [h])
        · exact Or.inl (List.mem_cons_of_mem _ h)
      · simp [rinsert, hk] at h
        rcases h with h | h
        · exact Or.inl (by simp [h])
        · rcases ih h with h2 | h2
          · exact Or.inl (List.mem_cons_of_mem _ h2)
          · exact Or.inr h2

theorem mem_rerase {r : Registry} {k : String} {x : String × Modem}
    (h : x ∈ rerase r k) : x ∈ r := by
  induction r with
  | nil => simp [rerase] at h
  | cons kv r ih =>
      obtain ⟨k0, w⟩ := kv
      by_cases hk : k0 = k
      · simp [rerase, hk] at h
        exact List.mem_cons_of_mem _ (ih h)
      · simp [rerase, hk] at h
        rcases h with h | h
        · simp [h]
        · exact List.mem_cons_of_mem _ (ih h)

theorem rinsert_rinsert (r : Registry) (k : String) (v w : Modem) :
    rinsert (rinsert r k v) k w = rinsert r k w := by
  induction r with
  | nil => simp [rinsert]
  | cons kv r ih =>
      obtain ⟨k0, u⟩ := kv
      by_cases hk : k0 = k <;> simp [rinsert, hk, ih]

theorem rerase_of_rfind_none {r : Registry} {k : String}
    (h : rfind r k = none) : rerase r k = r := by
  induction r with
  | nil => rfl
  | cons kv r ih =>
      obtain ⟨k0, w⟩ := kv
      by_cases hk : k0 = k
      · simp [rfind, hk] at h
      · simp [rfind, hk] at h
        simp [rerase, hk, ih h]

/-! ### Filter-loop lemmas -/

theorem matchCount_zero_nomatch {p : UsbParent} {fs : List filter}
    (h : matchCount p fs = 0) (env : SerialEnv) (ev : Event) (r : Registry) :
    filterLoop env ev p fs r = (r, []) := by
  induction fs generalizing r with
  | nil => rfl
  | cons f fs ih =>
      rw [matchCount] at h
      by_cases hm : p.idVendor = f.vid ∧ p.idProduct = f.pid
      · rw [if_pos hm] at h
        omega
      · rw [if_neg hm] at h
        simp only [filterLoop, if_neg hm]
        exact ih (by omega) r

theorem filterLoop_single {p : UsbParent} {fs : List filter}
    (h : matchCount p fs = 1) (env : SerialEnv) (ev : Event) (r : Registry) :
    filterLoop env ev p fs r =
      ((filterStep env ev p r).1, (filterStep env ev p r).2.toList) := by
  induction fs generalizing r with
  | nil => simp [matchCount] at h
  | cons f fs ih =>
      rw [matchCount] at h
      by_cases hm : p.idVendor = f.vid ∧ p.idProduct = f.pid
      · rw [if_pos hm] at h
        have h0 : matchCount p fs = 0 := by omega
        simp only [filterLoop, if_pos hm,
          matchCount_zero_nomatch h0 env ev (filterStep env ev p r).1]
        simp
      · rw [if_neg hm] at h
        simp only [filterLoop, if_neg hm]
        exact ih (by omega) r

theorem filterStep_tty {ev : Event} (hS : ev.subsystem = "tty")
    (hE : ev.epNum = "03") (env : SerialEnv) (p : UsbParent) (r : Registry) :
    filterStep env ev p r =
      (rinsert r p.devNode (ttyRecord env ev ((rfind r p.devNode).getD Modem.zero)),
       some (mkCall ev.action
         (ttyRecord env ev ((rfind r p.devNode).getD Modem.zero)))) := by
  have hnet : ¬ ev.subsystem = "net" := by rw [hS]; decide
  simp only [filterStep, ttyRecord, mkCall, if_neg hnet, if_pos (And.intro hS hE)]

theorem filterStep_net {ev : Event} (hS : ev.subsystem = "net")
    (env : SerialEnv) (p : UsbParent) (r : Registry) :
    filterStep env ev p r =
      (rinsert r p.devNode
        { (rfind r p.devNode).getD Modem.zero with Net := ev.sysName }, none) := by
  have htty : ¬ (ev.subsystem = "tty" ∧ ev.epNum = "03") := by
    rw [hS]; intro hc; exact absurd hc.1 (by decide)
  simp only [filterStep, if_pos hS, if_neg htty]

theorem filterLoop_net {ev : Event} (hS : ev.subsystem = "net")
    (env : SerialEnv) (p : UsbParent) {fs : List filter}
    (hM : matchCount p fs ≠ 0) (r : Registry) :
    filterLoop env ev p fs r =
      (rinsert r p.devNode
        { (rfind r p.devNode).getD Modem.zero with Net := ev.sysName }, []) := by
  induction fs generalizing r with
  | nil => simp [matchCount] at hM
  | cons f fs ih =>
      rw [matchCount] at hM
      by_cases hm : p.idVendor = f.vid ∧ p.idProduct = f.pid
      · simp only [filterLoop, if_pos hm, filterStep_net hS]
        by_cases h0 : matchCount p fs = 0
        · simp [matchCount_zero_nomatch h0]
        · rw [ih h0]
          simp [rfind_rinsert_self, rinsert_rinsert]
      · rw [if_neg hm] at hM
        simp only [filterLoop, if_neg hm]
        exact ih (by omega) r

theorem readDevice_go {ev : Event} {p : UsbParent} (hA : ev.action ≠ "remove")
    (hTN : ev.subsystem = "tty" ∨ ev.subsystem = "net")
    (hP : ev.usbParent = some p) (env : SerialEnv) (fs : List filter)
    (r : Registry) :
    readDevice env fs r ev = filterLoop env ev p fs r := by
  have hsub : ¬ (ev.subsystem ≠ "tty" ∧ ev.subsystem ≠ "net") := by
    rcases hTN with h | h <;> simp [h]
  simp only [readDevice, if_neg hA, if_neg hsub, hP]

theorem mkCall_add {a : String} (h : a ≠ "update") (d : Modem) :
    mkCall a d = HCall.add d := by
  unfold mkCall
  rw [if_pos h]

/-! ### Readiness-invariant lemmas -/

theorem readyInv_getD {r : Registry} (hInv : ReadyInv r) (k : String) :
    ((rfind r k).getD Modem.zero).ready = 1 →
      ((rfind r k).getD Modem.zero).Tty ≠ "" ∧
      ((rfind r k).getD Modem.zero).Imei ≠ "" := by
  cases h : rfind r k with
  | none =>
      intro h1
      simp [Modem.zero] at h1
  | some v =>
      intro h1
      have := hInv (k, v) (rfind_mem h)
      simp only [Option.getD_some]
      exact this (by simpa using h1)

theorem readyInv_rinsert {r : Registry} (hInv : ReadyInv r) {k : String}
    {v : Modem} (hv : v.ready = 1 → v.Tty ≠ "" ∧ v.Imei ≠ "") :
    ReadyInv (rinsert r k v) := by
  intro kv hm
  rcases mem_rinsert hm with h | h
  · exact hInv kv h
  · subst h
    exact hv

theorem filterStep_inv (env : SerialEnv) (ev : Event) (p : UsbParent)
    {r : Registry} (hInv : ReadyInv r)
    (hNode : ev.subsystem = "tty" → ev.devNode ≠ "")
    (hOk : ∀ s, getImei env ev.devNode = Except.ok s → s ≠ "") :
    ReadyInv (filterStep env ev p r).1 := by
  have hd0 := readyInv_getD hInv p.devNode
  by_cases htty : ev.subsystem = "tty" ∧ ev.epNum = "03"
  · have hnet : ¬ ev.subsystem = "net" := by rw [htty.1]; decide
    cases hgi : getImei env ev.devNode with
    | ok s =>
        simp only [filterStep, if_neg hnet, if_pos htty, hgi]
        exact readyInv_rinsert hInv (fun _ => ⟨hNode htty.1, hOk s hgi⟩)
    | error e =>
        simp only [filterStep, if_neg hnet, if_pos htty, hgi]
        exact readyInv_rinsert hInv hd0
  · by_cases hnet : ev.subsystem = "net"
    · simp only [filterStep, if_pos hnet, if_neg htty]
      exact readyInv_rinsert hInv (fun h => hd0 h)
    · simp only [filterStep, if_neg hnet, if_neg htty]
      exact readyInv_rinsert hInv hd0

theorem filterLoop_inv (env : SerialEnv) (ev : Event) (p : UsbParent)
    (hNode : ev.subsystem = "tty" → ev.devNode ≠ "")
    (hOk : ∀ s, getImei env ev.devNode = Except.ok s → s ≠ "")
    (fs : List filter) {r : Registry} (hInv : ReadyInv r) :
    ReadyInv (filterLoop env ev p fs r).1 := by
  induction fs generalizing r with
  | nil => exact hInv
  | cons f fs ih =>
      by_cases hm : p.idVendor = f.vid ∧ p.idProduct = f.pid
      · simp only [filterLoop, if_pos hm]
        exact ih (filterStep_inv env ev p hInv hNode hOk)
      · simp only [filterLoop, if_neg hm]
        exact ih hInv

/-! ### Claim theorems -/

/-- C1 (code bug): `Monitor` tests the `monitoring` flag but never assigns
it, so after a successful `Monitor` the flag is still false and a second
`Monitor` call also returns success and spawns a second monitor goroutine,
instead of failing with the "already monitoring" error that the claim and
the spec require (`StopMonitor`, which does maintain the flag, shows that
setting it in `Monitor` was the intent). -/
theorem C1_second_monitor_not_rejected :
    Monitor ManagerNew = Except.ok ⟨[], [], false, 1⟩ ∧
    Monitor ⟨[], [], false, 1⟩ = Except.ok ⟨[], [], false, 2⟩ :=
  ⟨rfl, rfl⟩

/-- C2 (code bug): because `Monitor` never sets `monitoring`, `StopMonitor`
finds the flag false even immediately after a successful `Monitor` and
returns the "not monitoring" error, where the claim (and the code's own
doc comment on `StopMonitor`) require success. -/
theorem C2_stop_after_monitor_errors :
    Monitor ManagerNew = Except.ok ⟨[], [], false, 1⟩ ∧
    StopMonitor ⟨[], [], false, 1⟩ = Except.error "Monitor already stopped." :=
  ⟨rfl, rfl⟩

/-- C3 (code bug): when the stop channel is ready, the next loop iteration
deletes every registry entry and invokes no handler at all (in particular no
remove handler), exactly as the claim says — but the iteration's outcome is
`next`, not `returned`: the `break` in the Go source terminates only the
`select` statement, so the worker loop runs forever instead of
terminating. -/
theorem C3_stop_clears_without_remove_but_continues
    (env : SerialEnv) (fs : List filter) (r : Registry) :
    monitorStep env fs r LoopSignal.stop = ([], [], LoopOutcome.next) :=
  rfl

/-- Serial environment for the C5 counterexample: the transport succeeds and
the second read returns 26 bytes. -/
def envC5 : SerialEnv := ⟨false, false, false, List.replicate 26 'a'⟩

/-- C5 counterexample: the claim says any second read returning 25 or more
bytes succeeds, but the code tests the byte count with `n != 25`, so a
26-byte read fails with the "Invalid Imei" error. -/
theorem C5_cex :
    envC5.readBytes.length = 26 ∧
    getImei envC5 "/dev/ttyUSB0" = Except.error "Invalid Imei" :=
  ⟨rfl, rfl⟩

/-- C5 (amended): when the transport calls succeed, the second read fails
with the "Invalid Imei" error exactly when its byte count differs from 25
(not merely when it is below 25); on a read of exactly 25 bytes it succeeds,
returning the first IMEILEN = 17 bytes trimmed of CR, LF and space. -/
theorem C5_second_read_exact_25 (env : SerialEnv) (port : String)
    (ho : env.openErr = false) (hw : env.writeErr = false)
    (hr : env.readErr = false) :
    (getImei env port = Except.error "Invalid Imei" ↔
      env.readBytes.length ≠ 25) ∧
    (env.readBytes.length = 25 →
      getImei env port =
        Except.ok (String.mk (trimCut (env.readBytes.take IMEILEN)))) := by
  constructor
  · constructor
    · intro h hlen
      simp [getImei, ho, hw, hr, hlen] at h
    · intro hlen
      simp [getImei, ho, hw, hr, hlen]
  · intro hlen
    simp [getImei, ho, hw, hr, hlen]

/-- Serial environment for the C5 witness: a successful 25-byte read. -/
def envW5 : SerialEnv := ⟨false, false, false, List.replicate 25 'b'⟩

/-- C5 witness: the amended statement evaluated on a concrete 25-byte
read. -/
theorem C5_witness :
    getImei envW5 "p" =
      Except.ok (String.mk (trimCut (envW5.readBytes.take IMEILEN))) :=
  (C5_second_read_exact_25 envW5 "p" rfl rfl rfl).2 rfl

/-- C10: processing a "remove" event touches only the registry key equal to
the event's own device node — the resulting registry is exactly the prior
one with that key erased.  Hence an entry stored under a parent USB path
survives every remove event whose device node differs from that path, and
only a remove event carrying the parent path itself deletes it. -/
theorem C10_remove_deletes_only_own_key (env : SerialEnv) (fs : List filter)
    (r : Registry) (ev : Event) (hA : ev.action = "remove") :
    (readDevice env fs r ev).1 = rerase r ev.devNode := by
  simp only [readDevice, if_pos hA]
  cases h : rfind r ev.devNode with
  | none => simp [rerase_of_rfind_none h]
  | some v => rfl

/-- Registry record for the C10 witness. -/
def mW10 : Modem := ⟨"wwan1", "/dev/ttyUSB7", "867530900000001", 1⟩

/-- Remove event for the C10 witness: the tty leaf's device node, which
differs from the parent path the record is stored under. -/
def evW10 : Event := ⟨"remove", "/dev/ttyUSB7", "ttyUSB7", "tty", "03", none⟩

/-- Serial environment for the C10 witness (unused by the remove branch). -/
def envW10 : SerialEnv := ⟨false, false, false, []⟩

/-- C10 witness: a remove event for a tty leaf node leaves the record stored
under the parent USB path untouched. -/
theorem C10_witness :
    (readDevice envW10 [] [("/devbus/w10", mW10)] evW10).1 =
      [("/devbus/w10", mW10)] :=
  (C10_remove_deletes_only_own_key envW10 [] [("/devbus/w10", mW10)]
    evW10 rfl).trans rfl

/-- Parent device for the C4 counterexample. -/
def pX4 : UsbParent := ⟨"/devbus/x4", "12d1", "1506"⟩

/-- Action-"change" tty event on endpoints "03" for the C4 counterexample. -/
def evX4 : Event := ⟨"change", "/dev/ttyUSB1", "ttyUSB1", "tty", "03", some pX4⟩

/-- Serial environment for the C4 counterexample (short 10-byte read). -/
def envX4 : SerialEnv := ⟨false, false, false, List.replicate 10 'c'⟩

/-- Filter list for the C4 counterexample. -/
def fsX4 : List filter := [⟨"12d1", "1506"⟩]

/-- C4 counterexample: the code fires the update handler only when the
action string is exactly "update" (`action != "update"` otherwise fires the
add handler), so an event with action "change" on the tty/endpoints-"03"
branch fires the add handler — the claim says the update handler fires and
the add handler does not. -/
theorem C4_cex :
    evX4.action = "change" ∧
    (readDevice envX4 fsX4 [] evX4).2 = [HCall.add Modem.zero] :=
  ⟨rfl, rfl⟩

/-- C4 (amended): on the tty/endpoints-"03" branch the update handler fires
exactly when the action string is "update"; any other action — including
"change" — fires the add handler.  With exactly one matching filter, an
action-"change" event therefore produces exactly one add-handler invocation
(with the record the branch computed) and no update-handler invocation. -/
theorem C4_change_fires_add_not_update (env : SerialEnv) (fs : List filter)
    (r : Registry) (ev : Event) (p : UsbParent)
    (hA : ev.action = "change") (hS : ev.subsystem = "tty")
    (hE : ev.epNum = "03") (hP : ev.usbParent = some p)
    (hM : matchCount p fs = 1) :
    (readDevice env fs r ev).2 =
      [HCall.add (ttyRecord env ev ((rfind r p.devNode).getD Modem.zero))] := by
  rw [readDevice_go (by rw [hA]; decide) (Or.inl hS) hP,
    filterLoop_single hM, filterStep_tty hS hE,
    mkCall_add (by rw [hA]; decide)]
  rfl

/-- Parent device for the C4 witness. -/
def pW4 : UsbParent := ⟨"/devbus/w4", "12d1", "1001"⟩

/-- Action-"change" tty event for the C4 witness. -/
def evW4 : Event := ⟨"change", "/dev/ttyUSB2", "ttyUSB2", "tty", "03", some pW4⟩

/-- Serial environment for the C4 witness (open fails). -/
def envW4 : SerialEnv := ⟨true, false, false, []⟩

/-- Filter list for the C4 witness. -/
def fsW4 : List filter := [⟨"12d1", "1001"⟩]

/-- C4 witness: the amended statement evaluated on a concrete "change"
event with one matching filter. -/
theorem C4_witness :
    (readDevice envW4 fsW4 [] evW4).2 =
      [HCall.add (ttyRecord envW4 evW4 ((rfind [] pW4.devNode).getD Modem.zero))] :=
  C4_change_fires_add_not_update envW4 fsW4 [] evW4 pW4 rfl rfl rfl rfl
    (by decide)

/-- Parent device for the C6 counterexample. -/
def pC6 : UsbParent := ⟨"/devbus/c6", "12d1", "1506"⟩

/-- Action-"add" tty event on endpoints "03" for the C6 counterexample. -/
def evC6 : Event := ⟨"add", "/dev/ttyUSB3", "ttyUSB3", "tty", "03", some pC6⟩

/-- Serial environment for the C6 counterexample: a 25-byte reply whose
first 17 bytes are all CR, so the trimmed identifier is empty. -/
def envC6 : SerialEnv :=
  ⟨false, false, false, List.replicate 17 '\r' ++ List.replicate 8 'x'⟩

/-- Filter list for the C6 counterexample: the matching pair appears twice
(`AddFilter` never de-duplicates). -/
def fsC6 : List filter := [⟨"12d1", "1506"⟩, ⟨"12d1", "1506"⟩]

/-- C6 counterexample: the filter loop runs once per matching filter, so
with a duplicated matching pair one successful add event fires the add
handler twice, not exactly once; moreover `getImei` here succeeds with the
empty string, leaving `ready = 1` with an empty hardware identifier — both
against the claim. -/
theorem C6_cex :
    getImei envC6 evC6.devNode = Except.ok "" ∧
    (readDevice envC6 fsC6 [] evC6).2.length = 2 ∧
    rfind (readDevice envC6 fsC6 [] evC6).1 pC6.devNode =
      some ⟨"", "/dev/ttyUSB3", "", 1⟩ :=
  ⟨rfl, rfl, rfl⟩

/-- C6 (amended): for an action-"add" tty event on endpoints "03" whose
parent resolves and matches exactly one filter in the list, and whose
identifier retrieval succeeds with a non-empty identifier on a non-empty
device node: the registry afterwards holds at the parent path the prior
record updated with `ready = 1`, `Tty` set to the (non-empty) device node
and `Imei` set to the (non-empty) identifier, and the add handler fired
exactly once, with exactly that record.  (With k matching occurrences of the
pair in the filter list the handler fires k times.) -/
theorem C6_ready_after_success (env : SerialEnv) (fs : List filter)
    (devices : Registry) (ev : Event) (p : UsbParent) (imei : String)
    (hA : ev.action = "add") (hS : ev.subsystem = "tty") (hE : ev.epNum = "03")
    (hP : ev.usbParent = some p) (hM : matchCount p fs = 1)
    (hI : getImei env ev.devNode = Except.ok imei)
    (hN : ev.devNode ≠ "") (hne : imei ≠ "") :
    rfind (readDevice env fs devices ev).1 p.devNode =
      some { (rfind devices p.devNode).getD Modem.zero with
             Tty := ev.devNode, Imei := imei, ready := 1 } ∧
    (readDevice env fs devices ev).2 =
      [HCall.add { (rfind devices p.devNode).getD Modem.zero with
                   Tty := ev.devNode, Imei := imei, ready := 1 }] ∧
    ({ (rfind devices p.devNode).getD Modem.zero with
       Tty := ev.devNode, Imei := imei, ready := 1 } : Modem).ready = 1 ∧
    ({ (rfind devices p.devNode).getD Modem.zero with
       Tty := ev.devNode, Imei := imei, ready := 1 } : Modem).Tty ≠ "" ∧
    ({ (rfind devices p.devNode).getD Modem.zero with
       Tty := ev.devNode, Imei := imei, ready := 1 } : Modem).Imei ≠ "" := by
  rw [readDevice_go (by rw [hA]; decide) (Or.inl hS) hP,
    filterLoop_single hM, filterStep_tty hS hE]
  have hrec : ttyRecord env ev ((rfind devices p.devNode).getD Modem.zero) =
      { (rfind devices p.devNode).getD Modem.zero with
        Tty := ev.devNode, Imei := imei, ready := 1 } := by
    simp only [ttyRecord, hI]
  rw [hrec, mkCall_add (by rw [hA]; decide)]
  exact ⟨rfind_rinsert_self devices p.devNode _, rfl, rfl, hN, hne⟩

/-- Parent device for the C6 witness. -/
def pW6 : UsbParent := ⟨"/devbus/w6", "12d1", "1506"⟩

/-- Action-"add" tty event for the C6 witness (the spec scenario). -/
def evW6 : Event := ⟨"add", "/dev/ttyUSB0", "ttyUSB0", "tty", "03", some pW6⟩

/-- Serial environment for the C6 witness: a 25-byte frame whose first 17
bytes are the identifier followed by CR LF, as in the spec scenario. -/
def envW6 : SerialEnv :=
  ⟨false, false, false, ("123456789012345" ++ "\r\n" ++ "\r\n\r\nOK\r\n").toList⟩

/-- Filter list for the C6 witness: the single pair of the spec scenario. -/
def fsW6 : List filter := [⟨"12d1", "1506"⟩]

/-- C6 witness: the amended statement evaluated on the spec scenario
(identifier "123456789012345" in a 25-byte frame, one matching filter). -/
theorem C6_witness :
    rfind (readDevice envW6 fsW6 [] evW6).1 pW6.devNode =
      some { (rfind [] pW6.devNode).getD Modem.zero with
             Tty := evW6.devNode, Imei := "123456789012345", ready := 1 } ∧
    (readDevice envW6 fsW6 [] evW6).2 =
      [HCall.add { (rfind [] pW6.devNode).getD Modem.zero with
                   Tty := evW6.devNode, Imei := "123456789012345", ready := 1 }] ∧
    ({ (rfind [] pW6.devNode).getD Modem.zero with
       Tty := evW6.devNode, Imei := "123456789012345", ready := 1 } : Modem).ready = 1 ∧
    ({ (rfind [] pW6.devNode).getD Modem.zero with
       Tty := evW6.devNode, Imei := "123456789012345", ready := 1 } : Modem).Tty ≠ "" ∧
    ({ (rfind [] pW6.devNode).getD Modem.zero with
       Tty := evW6.devNode, Imei := "123456789012345", ready := 1 } : Modem).Imei ≠ "" :=
  C6_ready_after_success envW6 fsW6 [] evW6 pW6 "123456789012345"
    rfl rfl rfl rfl (by decide) rfl (by decide) (by decide)

/-- Parent device for the C7 counterexample. -/
def pX7 : UsbParent := ⟨"/devbus/x7", "12d1", "1001"⟩

/-- Action-"add" tty event on endpoints "03" for the C7 counterexample. -/
def evX7 : Event := ⟨"add", "/dev/ttyUSB4", "ttyUSB4", "tty", "03", some pX7⟩

/-- Serial environment for the C7 counterexample: a short 10-byte read, so
identifier retrieval fails. -/
def envX7 : SerialEnv := ⟨false, false, false, List.replicate 10 'd'⟩

/-- Filter list for the C7 counterexample: the matching pair appears
twice. -/
def fsX7 : List filter := [⟨"12d1", "1001"⟩, ⟨"12d1", "1001"⟩]

/-- C7 counterexample: with a duplicated matching filter, a tty event whose
identifier retrieval fails (short read) fires the add handler twice, not
exactly once as the claim states; the record itself stays at its zero
value. -/
theorem C7_cex :
    getImei envX7 evX7.devNode = Except.error "Invalid Imei" ∧
    (readDevice envX7 fsX7 [] evX7).2 =
      [HCall.add Modem.zero, HCall.add Modem.zero] :=
  ⟨rfl, rfl⟩

/-- C7 (amended): for an action-"add" tty event on endpoints "03" whose
parent resolves and matches exactly one filter in the list, and whose
identifier retrieval fails: the record's fields are left exactly as they
were (in particular a not-yet-ready record keeps `ready = 0` and an empty
`Imei`), the unchanged record is stored back at the parent path, the add
handler is invoked exactly once with that record (once per occurrence when
the pair is duplicated), and `readDevice` surfaces no error to its caller —
its result type carries none. -/
theorem C7_failure_keeps_record_fires_add (env : SerialEnv) (fs : List filter)
    (devices : Registry) (ev : Event) (p : UsbParent) (e : String)
    (hA : ev.action = "add") (hS : ev.subsystem = "tty") (hE : ev.epNum = "03")
    (hP : ev.usbParent = some p) (hM : matchCount p fs = 1)
    (hI : getImei env ev.devNode = Except.error e) :
    readDevice env fs devices ev =
      (rinsert devices p.devNode ((rfind devices p.devNode).getD Modem.zero),
       [HCall.add ((rfind devices p.devNode).getD Modem.zero)]) := by
  rw [readDevice_go (by rw [hA]; decide) (Or.inl hS) hP,
    filterLoop_single hM, filterStep_tty hS hE]
  have hrec : ttyRecord env ev ((rfind devices p.devNode).getD Modem.zero) =
      (rfind devices p.devNode).getD Modem.zero := by
    simp only [ttyRecord, hI]
  rw [hrec, mkCall_add (by rw [hA]; decide)]
  rfl

/-- Parent device for the C7 witness. -/
def pW7 : UsbParent := ⟨"/devbus/w7", "1199", "68a3"⟩

/-- Action-"add" tty event for the C7 witness. -/
def evW7 : Event := ⟨"add", "/dev/ttyUSB5", "ttyUSB5", "tty", "03", some pW7⟩

/-- Serial environment for the C7 witness: a 10-byte short read, the spec's
failure scenario. -/
def envW7 : SerialEnv := ⟨false, false, false, List.replicate 10 'e'⟩

/-- Filter list for the C7 witness. -/
def fsW7 : List filter := [⟨"1199", "68a3"⟩]

/-- C7 witness: the amended statement evaluated on the spec's short-read
scenario, from an empty registry: the non-ready zero record is stored and
handed to the add handler once. -/
theorem C7_witness :
    readDevice envW7 fsW7 [] evW7 =
      (rinsert [] pW7.devNode ((rfind [] pW7.devNode).getD Modem.zero),
       [HCall.add ((rfind [] pW7.devNode).getD Modem.zero)]) :=
  C7_failure_keeps_record_fires_add envW7 fsW7 [] evW7 pW7 "Invalid Imei"
    rfl rfl rfl rfl (by decide) rfl

/-- Registry record for the C8 counterexample. -/
def mX8 : Modem := ⟨"wwan0", "/dev/ttyUSB6", "861234567890123", 1⟩

/-- Parent device for the C8 counterexample. -/
def pX8 : UsbParent := ⟨"/devbus/x8", "12d1", "1506"⟩

/-- Net-subsystem remove event for the C8 counterexample, whose device node
equals the key of an existing registry entry. -/
def evX8 : Event := ⟨"remove", "/devbus/x8", "wwan0", "net", "00", some pX8⟩

/-- Serial environment for the C8 counterexample (unused by the remove
branch). -/
def envX8 : SerialEnv := ⟨false, false, false, []⟩

/-- Filter list for the C8 counterexample: the parent's pair matches. -/
def fsX8 : List filter := [⟨"12d1", "1506"⟩]

/-- C8 counterexample: `readDevice` handles action "remove" before it ever
inspects the subsystem, so a net-subsystem remove event whose device node
carries a registry entry fires the remove handler and deletes the entry —
against the claim that a net event only sets `networkInterfaceName` and
fires no handler. -/
theorem C8_cex :
    evX8.subsystem = "net" ∧
    readDevice envX8 fsX8 [("/devbus/x8", mX8)] evX8 =
      ([], [HCall.remove mX8]) :=
  ⟨rfl, rfl⟩

/-- C8 (amended): for every net-subsystem event with an action other than
"remove" whose parent resolves and matches at least one filter: the result
stores at the parent path the prior record (the zero record when absent)
with only `Net` changed to the leaf's short name — `Tty`, `Imei` and `ready`
keep their previous values, no other key is touched — and no handler (add,
update or remove) fires.  A net-subsystem "remove" event whose device node
has a registry entry instead fires the remove handler and deletes that
entry. -/
theorem C8_net_updates_only_net (env : SerialEnv) (fs : List filter)
    (r : Registry) (ev : Event) (p : UsbParent)
    (hA : ev.action ≠ "remove") (hS : ev.subsystem = "net")
    (hP : ev.usbParent = some p) (hM : matchCount p fs ≠ 0) :
    readDevice env fs r ev =
      (rinsert r p.devNode
        { (rfind r p.devNode).getD Modem.zero with Net := ev.sysName }, []) := by
  rw [readDevice_go hA (Or.inr hS) hP, filterLoop_net hS env p hM r]

/-- Prior registry record for the C8 witness: a ready record whose fields
must survive the net event. -/
def mW8 : Modem := ⟨"", "/dev/ttyUSB9", "868999000111222", 1⟩

/-- Parent device for the C8 witness. -/
def pW8 : UsbParent := ⟨"/devbus/w8", "12d1", "1506"⟩

/-- Action-"add" net event for the C8 witness. -/
def evW8 : Event := ⟨"add", "", "wwan1", "net", "00", some pW8⟩

/-- Serial environment for the C8 witness (never consulted on the net
branch). -/
def envW8 : SerialEnv := ⟨false, false, false, []⟩

/-- Filter list for the C8 witness. -/
def fsW8 : List filter := [⟨"12d1", "1506"⟩]

/-- C8 witness: the amended statement evaluated on a concrete net event
arriving after a ready record exists at the parent path. -/
theorem C8_witness :
    readDevice envW8 fsW8 [("/devbus/w8", mW8)] evW8 =
      (rinsert [("/devbus/w8", mW8)] pW8.devNode
        { (rfind [("/devbus/w8", mW8)] pW8.devNode).getD Modem.zero with
          Net := evW8.sysName }, []) :=
  C8_net_updates_only_net envW8 fsW8 [("/devbus/w8", mW8)] evW8 pW8
    (by decide) rfl rfl (by decide)

/-- Parent device for the C9 counterexample. -/
def pX9 : UsbParent := ⟨"/devbus/x9", "1199", "68a3"⟩

/-- Action-"add" tty event on endpoints "03" for the C9 counterexample. -/
def evX9 : Event := ⟨"add", "/dev/ttyUSB6", "ttyUSB6", "tty", "03", some pX9⟩

/-- Serial environment for the C9 counterexample: a successful 25-byte read
whose first 17 bytes are all LF, so the trimmed identifier is empty. -/
def envX9 : SerialEnv :=
  ⟨false, false, false, List.replicate 17 '\n' ++ List.replicate 8 'y'⟩

/-- Filter list for the C9 counterexample. -/
def fsX9 : List filter := [⟨"1199", "68a3"⟩]

/-- C9 counterexample: the empty registry satisfies the readiness
invariant, yet processing one successful tty event whose 25-byte reply
trims to the empty identifier stores a record with `ready = 1` and an empty
`Imei` — the code never checks the trimmed identifier for emptiness, so the
invariant is not preserved by event processing. -/
theorem C9_cex :
    ReadyInv [] ∧ ¬ ReadyInv (readDevice envX9 fsX9 [] evX9).1 := by
  constructor
  · intro kv h
    exact absurd h (List.not_mem_nil kv)
  · intro h
    have h2 := h ("/devbus/x9", ⟨"", "/dev/ttyUSB6", "", 1⟩)
      (by
        rw [show (readDevice envX9 fsX9 [] evX9).1 =
          [("/devbus/x9", ⟨"", "/dev/ttyUSB6", "", 1⟩)] from rfl]
        exact List.mem_singleton.mpr rfl) rfl
    exact h2.2 rfl

/-- C9 (amended): the readiness invariant — every stored record with
`ready = 1` has non-empty `Tty` and `Imei` — is preserved by event
processing (and enumeration, which feeds events through the same
`readDevice`), by the stop-branch registry clearing, and by `List`,
provided every processed tty event carries a non-empty device node and
every successful identifier retrieval returns a non-empty identifier.
Net events (whose device node is typically empty) need no proviso: the
net branch never touches `Tty`, `Imei` or `ready`. -/
theorem C9_ready_invariant_preserved (env : SerialEnv) (fs : List filter)
    (r : Registry) (ev : Event) (hInv : ReadyInv r)
    (hNode : ev.subsystem = "tty" → ev.devNode ≠ "")
    (hOk : ∀ s, getImei env ev.devNode = Except.ok s → s ≠ "") :
    ReadyInv (readDevice env fs r ev).1 ∧
    ReadyInv (monitorStep env fs r LoopSignal.stop).1 ∧
    ReadyInv (ListDevices r) := by
  refine ⟨?_, ?_, ?_⟩
  · by_cases hA : ev.action = "remove"
    · simp only [readDevice, if_pos hA]
      cases h : rfind r ev.devNode with
      | none => exact hInv
      | some v =>
          intro kv hm
          exact hInv kv (mem_rerase hm)
    · by_cases hsub : ev.subsystem ≠ "tty" ∧ ev.subsystem ≠ "net"
      · simp only [readDevice, if_neg hA, if_pos hsub]
        exact hInv
      · cases hP : ev.usbParent with
        | none =>
            simp only [readDevice, if_neg hA, if_neg hsub, hP]
            exact hInv
        | some p =>
            simp only [readDevice, if_neg hA, if_neg hsub, hP]
            exact filterLoop_inv env ev p hNode hOk fs hInv
  · intro kv hm
    exact absurd hm (List.not_mem_nil kv)
  · intro kv hm
    simp only [ListDevices, List.mem_filter] at hm
    exact hInv kv hm.1

/-- Parent device for the C9 witness. -/
def pW9 : UsbParent := ⟨"/devbus/w9", "1199", "68a3"⟩

/-- Action-"add" tty event for the C9 witness. -/
def evW9 : Event := ⟨"add", "/dev/ttyUSB8", "ttyUSB8", "tty", "03", some pW9⟩

/-- Serial environment for the C9 witness: a successful read returning a
non-empty identifier. -/
def envW9 : SerialEnv :=
  ⟨false, false, false, ("868111222333444" ++ "\r\n" ++ "\r\n\r\nOK\r\n").toList⟩

/-- Filter list for the C9 witness. -/
def fsW9 : List filter := [⟨"1199", "68a3"⟩]

/-- C9 witness: the amended statement evaluated from the empty registry on
a concrete successful event with a non-empty identifier. -/
theorem C9_witness :
    ReadyInv (readDevice envW9 fsW9 [] evW9).1 ∧
    ReadyInv (monitorStep envW9 fsW9 [] LoopSignal.stop).1 ∧
    ReadyInv (ListDevices []) :=
  C9_ready_invariant_preserved envW9 fsW9 [] evW9
    (fun kv hm => absurd hm (List.not_mem_nil kv))
    (fun _ => by decide)
    (fun s h => by
      have h2 : Except.ok (ε := String) "868111222333444" = Except.ok s := h
      cases h2
      decide)
